import Mathlib

/-
  Verification development for the pdf_to_img service (src/index.js).

  The repository source concatenates three variants of the service:
    - variant 1: in-memory rendering through the pdf-to-png-converter library
      (POST /convert at lines 31-93, POST /convert-raw at lines 96-165);
    - variant 2: pdfjs + node-canvas (convertPdfToPng at lines 216-271);
    - variant 3: external pdf-poppler process with /tmp scratch files
      (POST /convert at lines 424-506).

  The handlers are embedded as pure Lean functions. External collaborators
  (the rasterizing libraries, the express body parser) are modelled as
  explicit parameters or as small functions that follow their documented
  behaviour; each such model is marked in its doc comment.
-/

namespace PdfToImg

/-- Byte sequences (JS Buffer contents) are lists of byte values. -/
abbrev Bytes := List Nat

/-- Options object passed to pdfToPng at src/index.js lines 47-56.
    viewportScale is the exact integer 2 (the source literal 2.0 is integral). -/
structure PdfToPngOptions where
  disableFontFace : Bool
  useSystemFonts : Bool
  enableXfa : Bool
  viewportScale : Nat
  pagesRange : List Nat
  strictPaging : Bool
deriving DecidableEq, Repr

/-- The options literal of the POST /convert handler (lines 47-56). -/
def convertOptions : PdfToPngOptions :=
  { disableFontFace := false
    useSystemFonts := false
    enableXfa := false
    viewportScale := 2
    pagesRange := [1]
    strictPaging := false }

/-- The options literal of the POST /convert-raw handler (lines 118-127);
    transcribed separately from its own code site. -/
def convertRawOptions : PdfToPngOptions :=
  { disableFontFace := false
    useSystemFonts := false
    enableXfa := false
    viewportScale := 2
    pagesRange := [1]
    strictPaging := false }

/-- One element of the array returned by pdfToPng. -/
structure PngPage where
  pageNumber : Nat
  content : Bytes
deriving DecidableEq, Repr

/-- Abstract external rasterizer: the pdfToPng library call, taking document
    bytes and the options object, and either throwing (error) or returning
    the rendered pages. -/
abbrev Rasterizer := Bytes → PdfToPngOptions → Except String (List PngPage)

/-- A decoded document, abstracted to the rendered content of each of its
    pages (page k of the document, 1-based, renders to pages[k-1]). -/
structure PdfDocument where
  pages : List Bytes
deriving DecidableEq, Repr

/-- Model of the pdf-to-png-converter rendering step on a decoded document:
    it renders exactly the pages listed in pagesRange that exist in the
    document; with strictPaging false, out-of-range entries are skipped. -/
def pdfToPngModel (doc : PdfDocument) (opts : PdfToPngOptions) : List PngPage :=
  (opts.pagesRange.filter fun k => decide (1 ≤ k) && decide (k ≤ doc.pages.length)).map
    fun k => { pageNumber := k, content := doc.pages.getD (k - 1) [] }

/-- A Rasterizer assembled from an abstract byte-level decoder followed by
    the pdf-to-png-converter page-selection model. -/
def pdfToPngOf (decode : Bytes → Except String PdfDocument) : Rasterizer :=
  fun b opts => (decode b).map fun doc => pdfToPngModel doc opts

/-- Successful response of the conversion endpoints: the headers set at
    src/index.js lines 70-77 plus the PNG body sent at line 79. -/
structure SuccessResponse where
  contentType : String
  contentLength : Nat
  xProcessingTimeMs : String
  xCorrelationId : String
  xOriginalSize : String
  xConvertedSize : String
  body : Bytes
deriving DecidableEq, Repr

/-- Failure response body. The 400 bodies at lines 39-43 and 110-114 carry
    only error and correlationId, hence the optional fields. -/
structure ErrorResponse where
  status : Nat
  error : String
  message : Option String
  correlationId : String
  processingTimeMs : Option Nat
deriving DecidableEq, Repr

inductive ConvertResponse where
  | ok (s : SuccessResponse)
  | err (e : ErrorResponse)
deriving DecidableEq, Repr

/-- HTTP status of a response (success responses are sent with status 200). -/
def ConvertResponse.status : ConvertResponse → Nat
  | .ok _ => 200
  | .err e => e.status

/-- The output image carried by a response, when there is one. -/
def successImage : ConvertResponse → Option Bytes
  | .ok s => some s.body
  | .err _ => none

/-- The client-visible error field of a response, when there is one. -/
def ConvertResponse.errorField : ConvertResponse → Option String
  | .ok _ => none
  | .err e => some e.error

/-- req.headers[x-correlation-id] with the literal default of line 33. -/
def correlationIdOf (h : Option String) : String := h.getD "unknown"

/-- A multipart request after multer: file is none exactly when
    req.file or req.file.buffer is missing (the guard at line 38); a
    present zero-length buffer is some [] and is truthy in JS, so it does
    not make the guard fire. -/
structure MultipartRequest where
  file : Option Bytes
  xCorrelationId : Option String
deriving DecidableEq, Repr

/-- POST /convert handler of variant 1 (src/index.js lines 31-93).
    elapsedMs stands for the Date.now() difference computed at response
    time. String literals are transcribed from the source. -/
def convertHandler (pdfToPng : Rasterizer) (elapsedMs : Nat)
    (req : MultipartRequest) : ConvertResponse :=
  let correlationId := correlationIdOf req.xCorrelationId
  match req.file with
  | none =>
      .err { status := 400, error := "No PDF file provided", message := none,
             correlationId := correlationId, processingTimeMs := none }
  | some buf =>
      match pdfToPng buf convertOptions with
      | .error msg =>
          .err { status := 500, error := "PDF conversion failed", message := some msg,
                 correlationId := correlationId, processingTimeMs := some elapsedMs }
      | .ok [] =>
          .err { status := 500, error := "PDF conversion failed",
                 message := some "No pages converted from PDF",
                 correlationId := correlationId, processingTimeMs := some elapsedMs }
      | .ok (page :: _) =>
          .ok { contentType := "image/png"
                contentLength := page.content.length
                xProcessingTimeMs := toString elapsedMs
                xCorrelationId := correlationId
                xOriginalSize := toString buf.length
                xConvertedSize := toString page.content.length
                body := page.content }

/-- req.body after the express.raw middleware: a Buffer when the body was
    parsed, otherwise the default empty object. -/
inductive RawBody where
  | buffer (b : Bytes)
  | emptyObject
deriving DecidableEq, Repr

/-- Model of express.raw with type application/pdf (lines 98-101): the body
    is buffered only when the request Content-Type matches the configured
    type; otherwise req.body is left as the default empty object. -/
def expressRaw (contentType : String) (payload : Bytes) : RawBody :=
  if contentType = "application/pdf" then .buffer payload else .emptyObject

/-- The guard of line 109, with JS semantics: both a Buffer and the empty
    object are truthy, so the first disjunct never fires; the length
    property of the empty object is undefined, and undefined === 0 is
    false. -/
def rawBodyGuardFires : RawBody → Bool
  | .buffer b => b.length == 0
  | .emptyObject => false

/-- Modelled message of the error the pdf-to-png-converter library throws
    when its first argument is not a Buffer; the exact text is immaterial
    to the claims. -/
def nonBufferMessage : String := "pdf argument is not a buffer"

structure RawRequest where
  contentType : String
  payload : Bytes
  xCorrelationId : Option String
deriving DecidableEq, Repr

/-- POST /convert-raw handler of variant 1 (src/index.js lines 96-165),
    composed with the express.raw middleware. When req.body is the empty
    object, pdfToPng is invoked on a non-buffer and throws, reaching the
    catch block. -/
def convertRawHandler (pdfToPng : Rasterizer) (elapsedMs : Nat)
    (req : RawRequest) : ConvertResponse :=
  let body := expressRaw req.contentType req.payload
  let correlationId := correlationIdOf req.xCorrelationId
  if rawBodyGuardFires body then
    .err { status := 400, error := "No PDF data provided", message := none,
           correlationId := correlationId, processingTimeMs := none }
  else
    match body with
    | .emptyObject =>
        .err { status := 500, error := "PDF conversion failed",
               message := some nonBufferMessage,
               correlationId := correlationId, processingTimeMs := some elapsedMs }
    | .buffer b =>
        match pdfToPng b convertRawOptions with
        | .error msg =>
            .err { status := 500, error := "PDF conversion failed", message := some msg,
                   correlationId := correlationId, processingTimeMs := some elapsedMs }
        | .ok [] =>
            .err { status := 500, error := "PDF conversion failed",
                   message := some "No pages converted from PDF",
                   correlationId := correlationId, processingTimeMs := some elapsedMs }
        | .ok (page :: _) =>
            .ok { contentType := "image/png"
                  contentLength := page.content.length
                  xProcessingTimeMs := toString elapsedMs
                  xCorrelationId := correlationId
                  xOriginalSize := toString b.length
                  xConvertedSize := toString page.content.length
                  body := page.content }

/-- convertPdfToPng of variant 2 (src/index.js lines 216-271): load the
    document, fail when numPages is 0, otherwise getPage(1) and render
    only that page. The per-page canvas rendering is abstracted as
    renderPage. -/
def convertPdfToPng (renderPage : PdfDocument → Nat → Bytes)
    (decode : Bytes → Except String PdfDocument) (pdfBuffer : Bytes) :
    Except String Bytes :=
  match decode pdfBuffer with
  | .error e => .error e
  | .ok pdf =>
      if pdf.pages.length = 0 then .error "PDF has no pages"
      else .ok (renderPage pdf 1)

/-- Scratch input path of the pdf-poppler /convert handler (line 442):
    path.join of /tmp with the correlation id. -/
def tempPdfPath (correlationId : String) : String :=
  "/tmp/" ++ correlationId ++ ".pdf"

/-- Scratch output directory of the pdf-poppler /convert handler (line 443). -/
def tempOutputDir (correlationId : String) : String :=
  "/tmp/output-" ++ correlationId

/-- The pair of scratch paths a pdf-poppler /convert request is assigned.
    Both depend only on the correlation id (defaulted at line 426); no
    random or monotonic disambiguator appears in the source. -/
def popplerScratch (req : MultipartRequest) : String × String :=
  (tempPdfPath (correlationIdOf req.xCorrelationId),
   tempOutputDir (correlationIdOf req.xCorrelationId))

/-- Filesystem scratch state: the files and directories currently on disk. -/
structure Fs where
  files : List String
  dirs : List String
deriving DecidableEq, Repr

/-- POST /convert handler of variant 3 (src/index.js lines 424-506) with
    explicit filesystem state. The backend abstracts pdf.convert: on
    success it creates the output directory and page-1.png with the given
    content; on failure it throws. The cleanup block (lines 468-475)
    removes the temp pdf, the png and the output directory and swallows
    its own failures; the catch block (lines 493-505) only responds with
    500 and performs no cleanup. -/
def popplerConvertHandler (backend : Bytes → Except String Bytes) (elapsedMs : Nat)
    (req : MultipartRequest) (fs : Fs) : ConvertResponse × Fs :=
  let correlationId := correlationIdOf req.xCorrelationId
  match req.file with
  | none =>
      (.err { status := 400, error := "No PDF file provided", message := none,
              correlationId := correlationId, processingTimeMs := none }, fs)
  | some buf =>
      let pdfPath := tempPdfPath correlationId
      let outDir := tempOutputDir correlationId
      let pngPath := outDir ++ "/page-1.png"
      let fs1 : Fs := { files := pdfPath :: fs.files, dirs := fs.dirs }
      match backend buf with
      | .error msg =>
          (.err { status := 500, error := "PDF conversion failed", message := some msg,
                  correlationId := correlationId, processingTimeMs := some elapsedMs },
           fs1)
      | .ok png =>
          let fs2 : Fs := { files := pngPath :: fs1.files, dirs := outDir :: fs1.dirs }
          let fs3 : Fs := { files := (fs2.files.erase pngPath).erase pdfPath,
                            dirs := fs2.dirs.erase outDir }
          (.ok { contentType := "image/png"
                 contentLength := png.length
                 xProcessingTimeMs := toString elapsedMs
                 xCorrelationId := correlationId
                 xOriginalSize := toString buf.length
                 xConvertedSize := toString png.length
                 body := png }, fs3)

/-- Concrete two-page document for witnesses. -/
def demoDoc : PdfDocument := { pages := [[7, 7, 7], [8, 8]] }

/-- Concrete decoder that accepts every input as demoDoc. -/
def demoDecode : Bytes → Except String PdfDocument := fun _ => .ok demoDoc

/-- Concrete rasterizer returning an empty page array. -/
def zeroPageRender : Rasterizer := fun _ _ => .ok []

/-- Concrete rasterizer that throws. -/
def crashRender : Rasterizer := fun _ _ => .error "render crashed"

/-- Concrete rasterizer returning one rendered page. -/
def onePageRender : Rasterizer := fun _ _ => .ok [{ pageNumber := 1, content := [9, 9] }]

/-- Concrete failing pdf.convert backend. -/
def failBackend : Bytes → Except String Bytes := fun _ => .error "poppler exited with code 1"

/-- Concrete succeeding pdf.convert backend. -/
def okBackend : Bytes → Except String Bytes := fun _ => .ok [3, 3]

/-- Concrete page renderer for the variant 2 model. -/
def demoRenderPage : PdfDocument → Nat → Bytes := fun _ _ => [5]

/-- The success record produced by convertHandler onePageRender 5 on a
    one-byte file without a correlation header. -/
def demoSuccess : SuccessResponse :=
  { contentType := "image/png", contentLength := 2, xProcessingTimeMs := "5",
    xCorrelationId := "unknown", xOriginalSize := "1", xConvertedSize := "2",
    body := [9, 9] }

/-- C1 counterexample: a present but zero-length multipart file passes the
    guard of line 38 (an empty Buffer is truthy in JS), so the rasterizer
    is invoked: with a throwing rasterizer the response is a 500, not the
    claimed 400, and with a succeeding rasterizer it is a 200 — the
    response depends on the backend, so the backend is reached. -/
theorem c1_empty_file_reaches_backend :
    convertHandler crashRender 4 { file := some [], xCorrelationId := none } =
      ConvertResponse.err
        { status := 500, error := "PDF conversion failed",
          message := some "render crashed", correlationId := "unknown",
          processingTimeMs := some 4 } ∧
    (convertHandler onePageRender 4 { file := some [], xCorrelationId := none }).status =
      200 := by
  exact ⟨rfl, rfl⟩

/-- C1 (amended): a missing multipart file on /convert, and a missing or
    zero-length raw body on /convert-raw, are rejected with status 400
    before any backend invocation or scratch-resource creation: the
    response is independent of the rasterizer and the filesystem state is
    unchanged. A present zero-length multipart file, however, is not
    caught by this guard. -/
theorem c1_missing_payload_rejected_before_backend (r₁ r₂ : Rasterizer)
    (bk : Bytes → Except String Bytes) (t : Nat) (cid : Option String) (fs : Fs) :
    convertHandler r₁ t { file := none, xCorrelationId := cid } =
      convertHandler r₂ t { file := none, xCorrelationId := cid } ∧
    (convertHandler r₁ t { file := none, xCorrelationId := cid }).status = 400 ∧
    convertRawHandler r₁ t
        { contentType := "application/pdf", payload := [], xCorrelationId := cid } =
      convertRawHandler r₂ t
        { contentType := "application/pdf", payload := [], xCorrelationId := cid } ∧
    (convertRawHandler r₁ t
        { contentType := "application/pdf", payload := [], xCorrelationId := cid }).status =
      400 ∧
    (popplerConvertHandler bk t { file := none, xCorrelationId := cid } fs).2 = fs := by
  exact ⟨rfl, rfl, rfl, rfl, rfl⟩

/-- C3: evaluation at the failing input. Two concurrent /convert requests
    (pdf-poppler variant) that both omit the X-Correlation-Id header are
    assigned the identical scratch paths /tmp/unknown.pdf and
    /tmp/output-unknown, because the paths are derived from the defaulted
    correlation id alone, with no random or monotonic disambiguator. -/
theorem c3_anonymous_requests_collide :
    popplerScratch { file := some [1], xCorrelationId := none } =
      popplerScratch { file := some [2, 2], xCorrelationId := none } ∧
    popplerScratch { file := some [1], xCorrelationId := none } =
      ("/tmp/unknown.pdf", "/tmp/output-unknown") := by
  exact ⟨rfl, rfl⟩

/-- C4: evaluation at the failing input. When pdf.convert throws, the
    catch block of the pdf-poppler /convert handler responds with 500 but
    performs no cleanup, so the temporary input file /tmp/unknown.pdf
    written before the backend call remains on disk; on the success path
    the cleanup block does remove every scratch entry. -/
theorem c4_failure_path_leaks_scratch_file :
    (popplerConvertHandler failBackend 7 { file := some [1], xCorrelationId := none }
        { files := [], dirs := [] }).2 =
      { files := ["/tmp/unknown.pdf"], dirs := [] } ∧
    ((popplerConvertHandler failBackend 7 { file := some [1], xCorrelationId := none }
        { files := [], dirs := [] }).1).status = 500 ∧
    (popplerConvertHandler okBackend 7 { file := some [1], xCorrelationId := none }
        { files := [], dirs := [] }).2 =
      { files := [], dirs := [] } := by
  refine ⟨?_, rfl, ?_⟩ <;> decide

/-- C5: evaluation at the failing input. The 400 validation response body
    carries only the error and correlationId fields — message and
    processingTimeMs are absent — while the 500 conversion-failure body
    carries all four fields, contradicting the claimed uniform four-field
    failure body. -/
theorem c5_validation_error_body_missing_fields :
    convertHandler onePageRender 0 { file := none, xCorrelationId := none } =
      ConvertResponse.err
        { status := 400, error := "No PDF file provided",
          message := none, correlationId := "unknown", processingTimeMs := none } ∧
    convertHandler crashRender 2 { file := some [1], xCorrelationId := none } =
      ConvertResponse.err
        { status := 500, error := "PDF conversion failed",
          message := some "render crashed", correlationId := "unknown",
          processingTimeMs := some 2 } := by
  exact ⟨rfl, rfl⟩

/-- C2: for every input whose decoding yields a document with at least one
    page, the conversion pipeline renders exactly one page — page 1 — and
    the handler returns exactly that one image buffer; the variant 2
    pipeline likewise renders only page 1. The page-selection model never
    yields more than the single page listed in pagesRange. -/
theorem c2_renders_exactly_page_one (decode : Bytes → Except String PdfDocument)
    (renderPage : PdfDocument → Nat → Bytes) (b : Bytes) (doc : PdfDocument)
    (t : Nat) (cid : Option String)
    (hdec : decode b = Except.ok doc) (hne : doc.pages ≠ []) :
    pdfToPngModel doc convertOptions =
      [{ pageNumber := 1, content := doc.pages.getD 0 [] }] ∧
    convertHandler (pdfToPngOf decode) t { file := some b, xCorrelationId := cid } =
      ConvertResponse.ok
        { contentType := "image/png",
          contentLength := (doc.pages.getD 0 []).length,
          xProcessingTimeMs := toString t, xCorrelationId := correlationIdOf cid,
          xOriginalSize := toString b.length,
          xConvertedSize := toString (doc.pages.getD 0 []).length,
          body := doc.pages.getD 0 [] } ∧
    convertPdfToPng renderPage decode b = Except.ok (renderPage doc 1) := by
  have hlen : 1 ≤ doc.pages.length := List.length_pos.mpr hne
  have hmodel : pdfToPngModel doc convertOptions =
      [{ pageNumber := 1, content := doc.pages.getD 0 [] }] := by
    simp [pdfToPngModel, convertOptions, List.filter, hlen]
  refine ⟨hmodel, ?_, ?_⟩
  · simp [convertHandler, pdfToPngOf, hdec, Except.map, hmodel]
  · have h0 : doc.pages.length ≠ 0 := by omega
    simp [convertPdfToPng, hdec, h0]

/-- C2 witness: concrete instantiation at a two-page document. -/
theorem c2_witness :
    pdfToPngModel demoDoc convertOptions =
      [{ pageNumber := 1, content := demoDoc.pages.getD 0 [] }] ∧
    convertHandler (pdfToPngOf demoDecode) 3
        { file := some [1], xCorrelationId := some "w" } =
      ConvertResponse.ok
        { contentType := "image/png",
          contentLength := (demoDoc.pages.getD 0 []).length,
          xProcessingTimeMs := toString 3, xCorrelationId := correlationIdOf (some "w"),
          xOriginalSize := toString ([1] : Bytes).length,
          xConvertedSize := toString (demoDoc.pages.getD 0 []).length,
          body := demoDoc.pages.getD 0 [] } ∧
    convertPdfToPng demoRenderPage demoDecode [1] =
      Except.ok (demoRenderPage demoDoc 1) :=
  c2_renders_exactly_page_one demoDecode demoRenderPage [1] demoDoc 3 (some "w")
    rfl (by decide)

/-- C6 counterexample: the zero-pages failure is not surfaced as a
    distinguished NoPagesRendered kind: its client-visible error field is
    the same generic text as the one produced by a crashing backend, so
    the two causes are not distinguished by kind. -/
theorem c6_counterexample :
    (convertHandler zeroPageRender 1 { file := some [1], xCorrelationId := none }).errorField =
      some "PDF conversion failed" ∧
    (convertHandler crashRender 1 { file := some [1], xCorrelationId := none }).errorField =
      some "PDF conversion failed" ∧
    (convertHandler zeroPageRender 1 { file := some [1], xCorrelationId := none }).errorField ≠
      some "NoPagesRendered" ∧
    (convertHandler zeroPageRender 1 { file := some [1], xCorrelationId := none }).status =
      500 := by
  refine ⟨rfl, rfl, ?_, rfl⟩
  decide

/-- C6 (amended): when the backend yields zero pages, the handler fails
    with a generic 500 whose error field is the shared text used for all
    conversion failures; the zero-pages cause is distinguished only by
    the message string. -/
theorem c6_zero_pages_generic_message (r : Rasterizer) (b : Bytes) (t : Nat)
    (cid : Option String) (h : r b convertOptions = Except.ok []) :
    convertHandler r t { file := some b, xCorrelationId := cid } =
      ConvertResponse.err
        { status := 500, error := "PDF conversion failed",
          message := some "No pages converted from PDF",
          correlationId := correlationIdOf cid, processingTimeMs := some t } := by
  simp [convertHandler, h]

/-- C6 witness: concrete instantiation at a backend yielding zero pages. -/
theorem c6_witness :
    zeroPageRender [1] convertOptions = Except.ok [] ∧
    convertHandler zeroPageRender 1 { file := some [1], xCorrelationId := none } =
      ConvertResponse.err
        { status := 500, error := "PDF conversion failed",
          message := some "No pages converted from PDF",
          correlationId := correlationIdOf none, processingTimeMs := some 1 } :=
  ⟨rfl, c6_zero_pages_generic_message zeroPageRender [1] 1 none rfl⟩

/-- C7: for every non-empty document byte sequence, the multipart /convert
    pipeline and the raw /convert-raw pipeline, driven by the same
    rasterizer, produce the same output image (hence identical content
    hashes). -/
theorem c7_cross_entrypoint_equivalence (r : Rasterizer) (t : Nat)
    (cid : Option String) (b : Bytes) (hb : b ≠ []) :
    successImage (convertHandler r t { file := some b, xCorrelationId := cid }) =
      successImage (convertRawHandler r t
        { contentType := "application/pdf", payload := b, xCorrelationId := cid }) := by
  have hopts : convertRawOptions = convertOptions := rfl
  have hguard : rawBodyGuardFires (RawBody.buffer b) = false := by
    simp [rawBodyGuardFires, List.length_eq_zero, hb]
  cases h : r b convertOptions with
  | error e =>
      simp [convertHandler, convertRawHandler, expressRaw, hguard, hopts, h, successImage]
  | ok pages =>
      cases pages with
      | nil =>
          simp [convertHandler, convertRawHandler, expressRaw, hguard, hopts, h,
            successImage]
      | cons p rest =>
          simp [convertHandler, convertRawHandler, expressRaw, hguard, hopts, h,
            successImage]

/-- C7 witness: concrete instantiation at a one-byte payload. -/
theorem c7_witness :
    ([1] : Bytes) ≠ [] ∧
    successImage (convertHandler onePageRender 2
        { file := some [1], xCorrelationId := none }) =
      successImage (convertRawHandler onePageRender 2
        { contentType := "application/pdf", payload := [1], xCorrelationId := none }) :=
  ⟨by decide, c7_cross_entrypoint_equivalence onePageRender 2 none [1] (by decide)⟩

/-- C8: for a fixed rasterizer strategy, the output image of the /convert
    pipeline depends only on the input bytes: two invocations on the same
    input, even with different correlation ids and different elapsed
    times, yield byte-identical output. -/
theorem c8_deterministic_for_fixed_strategy (r : Rasterizer) (b : Bytes)
    (t₁ t₂ : Nat) (c₁ c₂ : Option String) :
    successImage (convertHandler r t₁ { file := some b, xCorrelationId := c₁ }) =
      successImage (convertHandler r t₂ { file := some b, xCorrelationId := c₂ }) := by
  cases h : r b convertOptions with
  | error e => simp [convertHandler, h, successImage]
  | ok pages => cases pages <;> simp [convertHandler, h, successImage]

/-- C9: every successful conversion responds with the X-Original-Size
    header equal to the input byte length, the X-Converted-Size header
    equal to the output byte length, the processing time in the
    X-Processing-Time-Ms header, the image/png content type, and — when
    the backend renders non-empty page content — a non-empty body. -/
theorem c9_success_headers_match (r : Rasterizer) (t : Nat) (b : Bytes)
    (cid : Option String) (s : SuccessResponse)
    (h : convertHandler r t { file := some b, xCorrelationId := cid } =
      ConvertResponse.ok s)
    (hne : ∀ p rest, r b convertOptions = Except.ok (p :: rest) → p.content ≠ []) :
    s.xOriginalSize = toString b.length ∧
    s.xConvertedSize = toString s.body.length ∧
    s.xProcessingTimeMs = toString t ∧
    s.contentType = "image/png" ∧
    s.body ≠ [] := by
  cases hr : r b convertOptions with
  | error e => simp [convertHandler, hr] at h
  | ok pages =>
      cases pages with
      | nil => simp [convertHandler, hr] at h
      | cons p rest =>
          simp only [convertHandler, hr] at h
          rw [ConvertResponse.ok.injEq] at h
          subst h
          exact ⟨rfl, rfl, rfl, rfl, hne p rest hr⟩

/-- C9 witness: concrete instantiation at a one-byte input and a backend
    rendering a two-byte page. -/
theorem c9_witness :
    demoSuccess.xOriginalSize = toString ([1] : Bytes).length ∧
    demoSuccess.xConvertedSize = toString demoSuccess.body.length ∧
    demoSuccess.xProcessingTimeMs = toString 5 ∧
    demoSuccess.contentType = "image/png" ∧
    demoSuccess.body ≠ [] :=
  c9_success_headers_match onePageRender 5 [1] none demoSuccess (by decide)
    (by
      intro p rest h
      injection h with h1
      injection h1 with h2 h3
      subst h2
      decide)

/-- C10: a /convert-raw request whose Content-Type is not application/pdf
    leaves req.body as the empty object; the guard of line 109 does not
    fire (the length property of the empty object is undefined and
    undefined === 0 is false), so the request bypasses the 400 path,
    reaches the backend invocation, and fails with status 500. -/
theorem c10_wrong_content_type_bypasses_guard :
    expressRaw "text/plain" [37, 80, 68, 70] = RawBody.emptyObject ∧
    rawBodyGuardFires RawBody.emptyObject = false ∧
    convertRawHandler onePageRender 3
        { contentType := "text/plain", payload := [37, 80, 68, 70],
          xCorrelationId := none } =
      ConvertResponse.err
        { status := 500, error := "PDF conversion failed",
          message := some nonBufferMessage, correlationId := "unknown",
          processingTimeMs := some 3 } := by
  refine ⟨?_, rfl, ?_⟩ <;> decide

end PdfToImg
